import Mathlib

/-!
Verification development for the TRIALDB dataset API (`src/apitry.py`).

The program is a read-only HTTP query layer over a table loaded once at
startup.  We embed the table as a `List Record`, Python strings as lists of
unicode scalar values, and the three store operations (`get_records`,
`get_records_by_insid`, `get_stats`) as pure Lean functions, together with a
model of the framework boundary (parameter parsing and range validation).
-/

namespace Apitry

/-- A Python string: a sequence of unicode scalar values. -/
abbrev PyStr := List Char

/-- `str.lower()` restricted to ASCII letters: per-character lower-casing
(`Char.toLower` only maps `A`-`Z`).  Python's full Unicode case mapping is
not modelled; claims over this map are scoped to ASCII values. -/
def lowerStr (s : PyStr) : PyStr := s.map Char.toLower

/-- `Series.str.contains(pat, case=False)` on one cell holding `hay`, for
the literal fragment only: case-insensitive substring test, realised by
lower-casing both sides.  The program's call has `regex=True`, so `pat` is
really a regex pattern; see `containsRe` below for the regex semantics on
the modelled fragment, `containsRe_lit` for the proof that the two agree
exactly on metacharacter-free patterns, and the C2 counterexample for a
pattern where they differ. -/
def containsCI (hay pat : PyStr) : Bool :=
  decide (lowerStr pat <:+: lowerStr hay)

/-- One row of `TRIALDB.csv`.  `INSNAME`/`CREDDESC` cells may be missing
(NaN in the frame), hence `Option`.  Columns beyond the four the API touches
are irrelevant to every claim and are omitted. -/
structure Record where
  insid : Int
  insname : Option PyStr
  creddesc : Option PyStr
  credlev : PyStr
deriving DecidableEq

/-- The process-wide frame `df`.  A successful `pd.read_csv('TRIALDB.csv')`
yields a table carrying the TRIALDB schema; the `except FileNotFoundError`
branch yields `pd.DataFrame()`, a frame with zero rows and NO columns, on
which any named column access raises `KeyError`. -/
inductive Frame where
  | table (rows : List Record)
  | noColumns
deriving DecidableEq

/-- Startup load (`apitry.py` lines 9-15): `pd.read_csv` in a
`try/except FileNotFoundError` block.  `none` models the file being
absent, in which case `df = pd.DataFrame()` has no columns. -/
def startupFrame : Option (List Record) → Frame
  | some rows => Frame.table rows
  | none => Frame.noColumns

/-- `df[col].str.contains(pat, case=False, na=False)` evaluated at one cell:
a missing cell yields `False` (the `na=False` argument). -/
def cellMatches (cell : Option PyStr) (pat : PyStr) : Bool :=
  match cell with
  | none => false
  | some s => containsCI s pat

/-- One optional filter step of `get_records`.  The Python guard
`if insname:` skips the step when the parameter is absent (`None`) or the
empty string, both of which are falsy. -/
def applyFilter (pat? : Option PyStr) (col : Record → Option PyStr)
    (ds : List Record) : List Record :=
  match pat? with
  | none => ds
  | some pat =>
    if pat = [] then ds else ds.filter (fun r => cellMatches (col r) pat)

/-- Response envelope of `GET /records`. -/
structure RecordsPage where
  page : Nat
  size : Nat
  total_filtered : Nat
  data : List Record
deriving DecidableEq

/-- `get_records` (`apitry.py` lines 29-62): filter by `insname`, then by
`creddesc`, then slice `iloc[(page-1)*size : (page-1)*size + size]`.  The
boundary guarantees `page ≥ 1` and `1 ≤ size ≤ 100`, so `Nat` arithmetic
coincides with the Python slice. -/
def get_records (ds : List Record) (page size : Nat)
    (insname creddesc : Option PyStr) : RecordsPage :=
  let filtered := applyFilter creddesc Record.creddesc
      (applyFilter insname Record.insname ds)
  let start := (page - 1) * size
  let results := (filtered.drop start).take size
  { page := page
  , size := results.length
  , total_filtered := filtered.length
  , data := results }

/-- Success envelope of `GET /records/{insid}`. -/
structure ByIdResponse where
  insid : Int
  count : Nat
  data : List Record
deriving DecidableEq

/-- An HTTP error: status code and detail message. -/
abbrev HttpError := Nat × String

/-- `get_records_by_insid` (`apitry.py` lines 64-72): select the rows whose
`INSID` equals the requested id; raise `HTTPException(404, ...)` when the
selection is empty. -/
def get_records_by_insid (ds : List Record) (insid : Int) :
    Except HttpError ByIdResponse :=
  let results := ds.filter (fun r => r.insid == insid)
  if results = [] then
    Except.error (404, "No records found for INSID " ++ toString insid)
  else
    Except.ok { insid := insid, count := results.length, data := results }

/-- pandas `Series.unique()`: the distinct values in order of first
occurrence (duplicates removed, not sorted). -/
def uniqueFirst {α : Type} [DecidableEq α] : List α → List α
  | [] => []
  | a :: l => a :: uniqueFirst (l.filter (fun b => b ≠ a))
termination_by l => l.length
decreasing_by
  simp only [List.length_cons]
  exact Nat.lt_succ_of_le (List.length_filter_le _ _)

/-- pandas `Series.nunique()`: the number of distinct non-missing values. -/
def nunique (col : List (Option PyStr)) : Nat :=
  (uniqueFirst (col.filterMap id)).length

/-- Response envelope of `GET /stats`. -/
structure StatsResponse where
  unique_institutions : Nat
  unique_credentials : Nat
  credential_levels : List PyStr
deriving DecidableEq

/-- `get_stats` (`apitry.py` lines 74-83). -/
def get_stats (ds : List Record) : StatsResponse :=
  { unique_institutions := nunique (ds.map Record.insname)
  , unique_credentials := nunique (ds.map Record.creddesc)
  , credential_levels := uniqueFirst (ds.map Record.credlev) }

/-- Python truthiness of an optional string parameter (`if insname:`):
`None` and the empty string are falsy. -/
def truthy : Option PyStr → Bool
  | none => false
  | some p => !p.isEmpty

/-- `GET /records` at the HTTP level over the startup frame.  On a loaded
table it is `get_records`.  On the column-less frame a truthy filter
evaluates `filtered_df['INSNAME']` / `filtered_df['CREDDESC']`
(`apitry.py` lines 46, 49), which raises `KeyError`, surfaced by the
framework as HTTP 500; without a truthy filter the empty slice succeeds
with zero rows. -/
def get_records_frame (frame : Frame) (page size : Nat)
    (insname creddesc : Option PyStr) : Except HttpError RecordsPage :=
  match frame with
  | Frame.table rows =>
    Except.ok (get_records rows page size insname creddesc)
  | Frame.noColumns =>
    if truthy insname || truthy creddesc then
      Except.error (500, "Internal Server Error")
    else
      Except.ok { page := page, size := 0, total_filtered := 0, data := [] }

/-- `GET /records/{insid}` at the HTTP level over the startup frame.  On
the column-less frame `df['INSID']` (`apitry.py` line 69) raises
`KeyError`: HTTP 500, never the 404. -/
def get_records_by_insid_frame (frame : Frame) (id : Int) :
    Except HttpError ByIdResponse :=
  match frame with
  | Frame.table rows => get_records_by_insid rows id
  | Frame.noColumns => Except.error (500, "Internal Server Error")

/-- `GET /stats` at the HTTP level over the startup frame.  On the
column-less frame `df['INSNAME']` (`apitry.py` line 80) raises `KeyError`:
HTTP 500, never the zero counts. -/
def get_stats_frame (frame : Frame) : Except HttpError StatsResponse :=
  match frame with
  | Frame.table rows => Except.ok (get_stats rows)
  | Frame.noColumns => Except.error (500, "Internal Server Error")

/-- One raw HTTP parameter as the boundary sees it: absent, present but not
an integer, or an integer value. -/
inductive RawParam where
  | absent
  | malformed
  | value (n : Int)
deriving DecidableEq

/-- Modelled from the spec: FastAPI's query-parameter parsing.  An absent
parameter takes the declared default; a malformed one fails to parse. -/
def parseParam (dflt : Int) : RawParam → Option Int
  | RawParam.absent => some dflt
  | RawParam.malformed => none
  | RawParam.value n => some n

/-- Modelled from the spec: the boundary of `GET /records`.  FastAPI
enforces the `Query(1, ge=1)` / `Query(10, ge=1, le=100)` constraints
declared in the handler signature, answering 422 before the store code
runs; only validated values reach `get_records`. -/
def recordsEndpoint (ds : List Record) (pageRaw sizeRaw : RawParam)
    (insname creddesc : Option PyStr) : Except HttpError RecordsPage :=
  match parseParam 1 pageRaw, parseParam 10 sizeRaw with
  | some page, some size =>
    if 1 ≤ page ∧ 1 ≤ size ∧ size ≤ 100 then
      Except.ok (get_records ds page.toNat size.toNat insname creddesc)
    else
      Except.error (422, "Unprocessable Entity")
  | _, _ => Except.error (422, "Unprocessable Entity")

/-- Modelled from the spec: the boundary of `GET /records/{insid}`.  The
path parameter is declared `insid: int`; a value that does not parse as an
integer is rejected with 422 before the store code runs. -/
def recordsByIdEndpoint (ds : List Record) (insidRaw : RawParam) :
    Except HttpError ByIdResponse :=
  match insidRaw with
  | RawParam.value n => get_records_by_insid ds n
  | _ => Except.error (422, "Unprocessable Entity")

/-- Spec-side reading of one optional filter as a row predicate: an unset
or empty filter passes every row, a set one is the case-insensitive
substring test on the named column (missing cells fail). -/
def passesFilter (pat? : Option PyStr) (cell : Option PyStr) : Bool :=
  match pat? with
  | none => true
  | some pat => if pat = [] then true else cellMatches cell pat

/-- Spec-side reading of the filter phase: both filters applied as one
logical AND over the full dataset, preserving row order. -/
def filteredSpec (ds : List Record) (insname creddesc : Option PyStr) :
    List Record :=
  ds.filter (fun r =>
    passesFilter insname r.insname && passesFilter creddesc r.creddesc)

/-- The record list a `GET /records/{insid}` request answers with (empty
when the endpoint raises 404). -/
def byIdData (ds : List Record) (id : Int) : List Record :=
  match get_records_by_insid ds id with
  | Except.ok out => out.data
  | Except.error _ => []

/-- The distinct `INSID` values occurring in the dataset, in order of first
occurrence. -/
def insids (ds : List Record) : List Int :=
  uniqueFirst (ds.map Record.insid)

/-- A small concrete dataset used by the witnesses: the scenario of the
spec's testable-properties section (three records, INSID 1, 1, 2). -/
def sampleDS : List Record :=
  [ { insid := 1, insname := some ("Alpha U".toList)
    , creddesc := some ("Bachelors Degree".toList)
    , credlev := "3".toList }
  , { insid := 1, insname := some ("Alpha College".toList)
    , creddesc := some ("Masters Degree".toList)
    , credlev := "5".toList }
  , { insid := 2, insname := some ("Beta Inst".toList)
    , creddesc := some ("Bachelors Degree".toList)
    , credlev := "3".toList } ]

/-- The first record of `sampleDS`, used by the witnesses. -/
def sampleR1 : Record :=
  { insid := 1, insname := some ("Alpha U".toList)
  , creddesc := some ("Bachelors Degree".toList)
  , credlev := "3".toList }

/-- A record with a missing `INSNAME` cell, used by the witnesses. -/
def sampleR2 : Record :=
  { insid := 1, insname := none
  , creddesc := some ("Certificate".toList)
  , credlev := "1".toList }

/-- A record with a missing `CREDDESC` cell, used by the witnesses. -/
def sampleR3 : Record :=
  { insid := 2, insname := some ("Gamma Academy".toList)
  , creddesc := none
  , credlev := "1".toList }

/-- A dataset with missing (NaN) `INSNAME`/`CREDDESC` cells, used by the
witnesses. -/
def sampleDS2 : List Record := [sampleR2, sampleR3]

/-! ### The program's regex semantics on a modelled fragment

`str.contains(pat, case=False, na=False)` defaults to `regex=True`: the
filter value is a Python `re` pattern, not a literal.  We model the
fragment of patterns built from plain characters and `.`; this is enough
to refute the literal-substring reading at the pattern `"."` and to prove
it exact on metacharacter-free patterns. -/

theorem applyFilter_comp (ds : List Record) (i c : Option PyStr) :
    applyFilter c Record.creddesc (applyFilter i Record.insname ds)
      = filteredSpec ds i c := by
  cases i with
  | none =>
    cases c with
    | none => simp [applyFilter, filteredSpec, passesFilter]
    | some pc =>
      by_cases hc : pc = [] <;>
        simp [applyFilter, filteredSpec, passesFilter, hc]
  | some p0 =>
    by_cases hi : p0 = []
    · cases c with
      | none => simp [applyFilter, filteredSpec, passesFilter, hi]
      | some pc =>
        by_cases hc : pc = [] <;>
          simp [applyFilter, filteredSpec, passesFilter, hi, hc]
    · cases c with
      | none => simp [applyFilter, filteredSpec, passesFilter, hi]
      | some pc =>
        by_cases hc : pc = []
        · simp [applyFilter, filteredSpec, passesFilter, hi, hc]
        · simp only [applyFilter, filteredSpec, passesFilter, if_neg hi,
            if_neg hc, List.filter_filter]
          exact List.filter_congr (fun r _ => Bool.and_comm _ _)

/-! ### First-occurrence deduplication -/

theorem mem_uniqueFirst {α : Type} [DecidableEq α] (l : List α) (a : α) :
    a ∈ uniqueFirst l ↔ a ∈ l := by
  induction l using uniqueFirst.induct with
  | case1 => simp [uniqueFirst]
  | case2 x t ih =>
    simp only [uniqueFirst, List.mem_cons, ih, List.mem_filter]
    by_cases hax : a = x <;> simp [hax]

theorem nodup_uniqueFirst {α : Type} [DecidableEq α] (l : List α) :
    (uniqueFirst l).Nodup := by
  induction l using uniqueFirst.induct with
  | case1 => simp [uniqueFirst]
  | case2 x t ih =>
    simp only [uniqueFirst, List.nodup_cons]
    refine ⟨fun hmem => ?_, ih⟩
    have hx := (mem_uniqueFirst _ _).mp hmem
    simp [List.mem_filter] at hx

theorem toFinset_uniqueFirst {α : Type} [DecidableEq α] (l : List α) :
    (uniqueFirst l).toFinset = l.toFinset := by
  ext a
  simp [List.mem_toFinset, mem_uniqueFirst]

theorem length_uniqueFirst {α : Type} [DecidableEq α] (l : List α) :
    (uniqueFirst l).length = l.toFinset.card := by
  rw [← toFinset_uniqueFirst, List.toFinset_card_of_nodup (nodup_uniqueFirst l)]

/-- Position of the first occurrence of a value in a list (the list's
length when absent). -/
def firstIdx {α : Type} [DecidableEq α] (l : List α) (a : α) : Nat :=
  l.findIdx (fun b => b = a)

theorem firstIdx_cons_self {α : Type} [DecidableEq α] (l : List α) (a : α) :
    firstIdx (a :: l) a = 0 := by
  simp [firstIdx, List.findIdx_cons]

theorem firstIdx_cons_ne {α : Type} [DecidableEq α] (l : List α) {x a : α}
    (h : x ≠ a) : firstIdx (x :: l) a = firstIdx l a + 1 := by
  simp [firstIdx, List.findIdx_cons, h]

/-- First occurrences survive filtering in order: positions of two surviving
values compare the same way in the filtered and the unfiltered list. -/
theorem firstIdx_filter_lt {α : Type} [DecidableEq α] (p : α → Bool) :
    ∀ (l : List α) (b c : α), b ∈ l.filter p → c ∈ l.filter p →
      firstIdx (l.filter p) b < firstIdx (l.filter p) c →
      firstIdx l b < firstIdx l c := by
  intro l
  induction l with
  | nil =>
    intro b c hb _ _
    simp at hb
  | cons x t ih =>
    intro b c hb hc h
    by_cases hpx : p x
    · rw [List.filter_cons_of_pos hpx] at hb hc h
      by_cases hcx : c = x
      · subst hcx
        rw [firstIdx_cons_self] at h
        exact absurd h (Nat.not_lt_zero _)
      · by_cases hbx : b = x
        · subst hbx
          rw [firstIdx_cons_self, firstIdx_cons_ne _ (Ne.symm hcx)]
          exact Nat.succ_pos _
        · rw [firstIdx_cons_ne _ (Ne.symm hbx),
            firstIdx_cons_ne _ (Ne.symm hcx)] at h
          have hb' : b ∈ t.filter p := by
            rcases List.mem_cons.mp hb with h1 | h1
            · exact absurd h1 hbx
            · exact h1
          have hc' : c ∈ t.filter p := by
            rcases List.mem_cons.mp hc with h1 | h1
            · exact absurd h1 hcx
            · exact h1
          rw [firstIdx_cons_ne _ (Ne.symm hbx),
            firstIdx_cons_ne _ (Ne.symm hcx)]
          exact Nat.succ_lt_succ (ih b c hb' hc' (Nat.lt_of_succ_lt_succ h))
    · rw [List.filter_cons_of_neg hpx] at hb hc h
      have hbx : b ≠ x := by
        rintro rfl
        exact hpx ((List.mem_filter.mp hb).2)
      have hcx : c ≠ x := by
        rintro rfl
        exact hpx ((List.mem_filter.mp hc).2)
      rw [firstIdx_cons_ne _ (Ne.symm hbx),
        firstIdx_cons_ne _ (Ne.symm hcx)]
      exact Nat.succ_lt_succ (ih b c hb hc h)

/-- `uniqueFirst` lists values strictly in the order of their first
occurrence in the input. -/
theorem pairwise_firstIdx_uniqueFirst {α : Type} [DecidableEq α]
    (l : List α) :
    (uniqueFirst l).Pairwise (fun a b => firstIdx l a < firstIdx l b) := by
  induction l using uniqueFirst.induct with
  | case1 => simp [uniqueFirst]
  | case2 x t ih =>
    simp only [uniqueFirst, List.pairwise_cons]
    constructor
    · intro b hb
      have hbmem := (mem_uniqueFirst _ _).mp hb
      have hbx : b ≠ x := by simpa using (List.mem_filter.mp hbmem).2
      rw [firstIdx_cons_self, firstIdx_cons_ne _ (Ne.symm hbx)]
      exact Nat.succ_pos _
    · refine List.Pairwise.imp_of_mem ?_ ih
      intro a b ha hb hR
      have ha' := (mem_uniqueFirst _ _).mp ha
      have hb' := (mem_uniqueFirst _ _).mp hb
      have hax : a ≠ x := by simpa using (List.mem_filter.mp ha').2
      have hbx : b ≠ x := by simpa using (List.mem_filter.mp hb').2
      have ht : firstIdx t a < firstIdx t b :=
        firstIdx_filter_lt _ t a b ha' hb' hR
      rw [firstIdx_cons_ne _ (Ne.symm hax),
        firstIdx_cons_ne _ (Ne.symm hbx)]
      exact Nat.succ_lt_succ ht

/-! ### Counting lemmas for the by-id partition -/

theorem byIdData_eq_filter (ds : List Record) (id : Int) :
    byIdData ds id = ds.filter (fun r => r.insid == id) := by
  unfold byIdData get_records_by_insid
  by_cases h : ds.filter (fun r => r.insid == id) = [] <;> simp [h]

theorem count_filter_insid (ds : List Record) (r : Record) (id : Int) :
    (ds.filter (fun x => x.insid == id)).count r
      = if r.insid = id then ds.count r else 0 := by
  by_cases h : r.insid = id
  · rw [if_pos h, List.count_filter (by simp [h])]
  · rw [if_neg h]
    refine List.count_eq_zero.mpr ?_
    intro hmem
    exact h (by simpa using (List.mem_filter.mp hmem).2)

theorem sum_map_ite_mem (v : Int) (cnt : Nat) :
    ∀ ids : List Int, ids.Nodup →
      (ids.map (fun id => if v = id then cnt else 0)).sum
        = if v ∈ ids then cnt else 0 := by
  intro ids
  induction ids with
  | nil =>
    intro _
    simp
  | cons a t ih =>
    intro hnd
    rw [List.nodup_cons] at hnd
    simp only [List.map_cons, List.sum_cons, List.mem_cons]
    by_cases hva : v = a
    · subst hva
      rw [if_pos rfl, ih hnd.2, if_neg hnd.1]
      simp
    · rw [if_neg hva, ih hnd.2]
      simp [hva]

theorem applyFilter_none (col : Record → Option PyStr) (ds : List Record) :
    applyFilter none col ds = ds := rfl

theorem applyFilter_nil_pat (col : Record → Option PyStr) (ds : List Record) :
    applyFilter (some []) col ds = ds := by
  simp [applyFilter]

theorem applyFilter_nil_ds (pat? : Option PyStr) (col : Record → Option PyStr) :
    applyFilter pat? col [] = [] := by
  cases pat? <;> simp [applyFilter]

/-! ## The claims -/

/-- C1: for every dataset, page ≥ 1 and size ∈ [1, 100], `GET /records`
applies all supplied filters as one logical AND over the full dataset in
row order, returns the window of the filtered sequence at zero-based
offsets [(page-1)·size, (page-1)·size + size), reports `total_filtered` as
the pre-window filtered count and `size` as the returned window's length;
the window's length is ≤ size and ≤ the filtered total, and a page whose
offset exceeds the filtered count yields zero records rather than an
error. -/
theorem records_pagination_contract (ds : List Record) (page size : Nat)
    (i c : Option PyStr)
    (_hpage : 1 ≤ page) (_hsize1 : 1 ≤ size) (_hsize2 : size ≤ 100) :
    (get_records ds page size i c).total_filtered
        = (filteredSpec ds i c).length ∧
    (get_records ds page size i c).data
        = ((filteredSpec ds i c).drop ((page - 1) * size)).take size ∧
    (get_records ds page size i c).size
        = (get_records ds page size i c).data.length ∧
    (get_records ds page size i c).data.length ≤ size ∧
    (get_records ds page size i c).data.length
        ≤ (filteredSpec ds i c).length ∧
    ((filteredSpec ds i c).length ≤ (page - 1) * size →
      (get_records ds page size i c).data = []) := by
  have hf := applyFilter_comp ds i c
  simp only [get_records, hf]
  refine ⟨trivial, trivial, trivial, ?_, ?_, ?_⟩
  · simp only [List.length_take, List.length_drop]
    omega
  · simp only [List.length_take, List.length_drop]
    omega
  · intro h
    rw [List.drop_eq_nil_of_le h, List.take_nil]

/-- Witness for C1 on the spec's three-record scenario: page 2, size 1,
filter `insname=alpha`. -/
theorem records_pagination_contract_witness :
    (get_records sampleDS 2 1 (some ("alpha".toList)) none).total_filtered
        = (filteredSpec sampleDS (some ("alpha".toList)) none).length ∧
    (get_records sampleDS 2 1 (some ("alpha".toList)) none).data
        = ((filteredSpec sampleDS (some ("alpha".toList)) none).drop
            ((2 - 1) * 1)).take 1 ∧
    (get_records sampleDS 2 1 (some ("alpha".toList)) none).size
        = (get_records sampleDS 2 1 (some ("alpha".toList)) none).data.length ∧
    (get_records sampleDS 2 1 (some ("alpha".toList)) none).data.length ≤ 1 ∧
    (get_records sampleDS 2 1 (some ("alpha".toList)) none).data.length
        ≤ (filteredSpec sampleDS (some ("alpha".toList)) none).length ∧
    ((filteredSpec sampleDS (some ("alpha".toList)) none).length ≤ (2 - 1) * 1 →
      (get_records sampleDS 2 1 (some ("alpha".toList)) none).data = []) :=
  records_pagination_contract sampleDS 2 1 (some ("alpha".toList)) none
    (by decide) (by decide) (by decide)

/-- Counterexample to C5 as stated: with the backing file missing,
`df = pd.DataFrame()` has no columns, so `GET /stats`, `GET /records/{1}`
and a filtered `GET /records` all answer HTTP 500 (missing-column
`KeyError`), not the claimed zero counts / 404 / filtered empty page. -/
theorem missing_file_empty_dataset_counterexample :
    get_stats_frame (startupFrame none)
        = Except.error (500, "Internal Server Error") ∧
    get_stats_frame (startupFrame none)
        ≠ Except.ok { unique_institutions := 0, unique_credentials := 0
                    , credential_levels := [] } ∧
    get_records_by_insid_frame (startupFrame none) 1
        = Except.error (500, "Internal Server Error") ∧
    get_records_by_insid_frame (startupFrame none) 1
        ≠ Except.error (404, "No records found for INSID " ++ toString (1 : Int)) ∧
    get_records_frame (startupFrame none) 1 10 (some ("a".toList)) none
        = Except.error (500, "Internal Server Error") := by
  refine ⟨rfl, ?_, rfl, ?_, rfl⟩
  · intro h
    simp [get_stats_frame, startupFrame] at h
  · intro h
    simp [get_records_by_insid_frame, startupFrame] at h

/-- C5 amended: when the backing file is missing the process still starts,
serving the column-less empty frame; an unfiltered `GET /records` answers
`total_filtered = 0, data = []`, but `GET /records` with a truthy filter,
`GET /records/{insid}` for every id, and `GET /stats` each raise a
missing-column error surfaced as HTTP 500 — not the zero-row-table
404/zeros. -/
theorem missing_file_behavior (page size : Nat) (i c : Option PyStr)
    (id : Int) :
    startupFrame none = Frame.noColumns ∧
    get_records_frame (startupFrame none) page size none none
        = Except.ok { page := page, size := 0, total_filtered := 0
                    , data := [] } ∧
    ((truthy i || truthy c) = true →
      get_records_frame (startupFrame none) page size i c
        = Except.error (500, "Internal Server Error")) ∧
    get_records_by_insid_frame (startupFrame none) id
        = Except.error (500, "Internal Server Error") ∧
    get_stats_frame (startupFrame none)
        = Except.error (500, "Internal Server Error") := by
  refine ⟨rfl, rfl, ?_, rfl, rfl⟩
  intro h
  simp [get_records_frame, startupFrame, h]

/-- Witness for the amended C5: the column-less frame at `page 1, size 10`
with filter `a` and id 7. -/
theorem missing_file_behavior_witness :
    get_records_frame (startupFrame none) 1 10 none none
        = Except.ok { page := 1, size := 0, total_filtered := 0
                    , data := [] } ∧
    get_records_frame (startupFrame none) 1 10 (some ("a".toList)) none
        = Except.error (500, "Internal Server Error") ∧
    get_records_by_insid_frame (startupFrame none) 7
        = Except.error (500, "Internal Server Error") ∧
    get_stats_frame (startupFrame none)
        = Except.error (500, "Internal Server Error") :=
  ⟨(missing_file_behavior 1 10 (some ("a".toList)) none 7).2.1,
   (missing_file_behavior 1 10 (some ("a".toList)) none 7).2.2.1 (by decide),
   (missing_file_behavior 1 10 (some ("a".toList)) none 7).2.2.2.1,
   (missing_file_behavior 1 10 (some ("a".toList)) none 7).2.2.2.2⟩

/-- C7: with no filters, `page = 1` and any `size` at least the dataset's
record count (and within [1, 100]), `list` returns the entire dataset in
original order. -/
theorem first_page_returns_all (ds : List Record) (size : Nat)
    (_h1 : 1 ≤ size) (_h2 : size ≤ 100) (hN : ds.length ≤ size) :
    (get_records ds 1 size none none).data = ds ∧
    (get_records ds 1 size none none).total_filtered = ds.length ∧
    (get_records ds 1 size none none).size = ds.length := by
  simp [get_records, applyFilter_none, List.take_of_length_le hN]

/-- Witness for C7: the three-record dataset is returned whole at
`page = 1, size = 3`. -/
theorem first_page_returns_all_witness :
    (get_records sampleDS 1 3 none none).data = sampleDS ∧
    (get_records sampleDS 1 3 none none).total_filtered = sampleDS.length ∧
    (get_records sampleDS 1 3 none none).size = sampleDS.length :=
  first_page_returns_all sampleDS 3 (by decide) (by decide) (by decide)

/-- C9: an `insname` (resp. `creddesc`) parameter supplied as the empty
string yields exactly the same response as leaving the filter unset: the
empty-string filter passes all records. -/
theorem empty_filter_is_noop (ds : List Record) (page size : Nat)
    (i c : Option PyStr) :
    get_records ds page size (some []) c = get_records ds page size none c ∧
    get_records ds page size i (some []) = get_records ds page size i none := by
  constructor
  · simp only [get_records, applyFilter_nil_pat, applyFilter_none]
  · simp only [get_records, applyFilter_nil_pat, applyFilter_none]

/-- C3: `GET /records/{insid}` answers exactly the records whose `INSID`
equals the requested id together with their count, and fails with a 404
naming the id precisely when zero records match; in particular an id
absent from the dataset yields the 404. -/
theorem get_by_id_contract (ds : List Record) (id : Int) (r : Record) :
    ((∀ x ∈ ds, x.insid ≠ id) →
      get_records_by_insid ds id
        = Except.error (404, "No records found for INSID " ++ toString id)) ∧
    ((∃ x ∈ ds, x.insid = id) →
      get_records_by_insid ds id
        = Except.ok
            { insid := id
            , count := (ds.filter (fun x => x.insid == id)).length
            , data := ds.filter (fun x => x.insid == id) }) ∧
    ((∃ e : HttpError, get_records_by_insid ds id = Except.error e) ↔
      (∀ x ∈ ds, x.insid ≠ id)) ∧
    (r ∈ ds.filter (fun x => x.insid == id) ↔ r ∈ ds ∧ r.insid = id) := by
  have h404 : (∀ x ∈ ds, x.insid ≠ id) →
      get_records_by_insid ds id
        = Except.error (404, "No records found for INSID " ++ toString id) := by
    intro hno
    have hfil : ds.filter (fun x => x.insid == id) = [] := by
      refine List.filter_eq_nil_iff.mpr ?_
      intro x hx
      simpa using hno x hx
    simp [get_records_by_insid, hfil]
  have hok : (∃ x ∈ ds, x.insid = id) →
      get_records_by_insid ds id
        = Except.ok
            { insid := id
            , count := (ds.filter (fun x => x.insid == id)).length
            , data := ds.filter (fun x => x.insid == id) } := by
    rintro ⟨x0, hx0, hid⟩
    have hne : ds.filter (fun x => x.insid == id) ≠ [] := by
      intro h
      have hx : x0 ∈ ds.filter (fun x => x.insid == id) :=
        List.mem_filter.mpr ⟨hx0, by simp [hid]⟩
      rw [h] at hx
      simp at hx
    simp [get_records_by_insid, hne]
  refine ⟨h404, hok, ⟨?_, fun hno => ⟨_, h404 hno⟩⟩, by simp [List.mem_filter]⟩
  rintro ⟨e, he⟩ x hx hxid
  rw [hok ⟨x, hx, hxid⟩] at he
  exact absurd he (by simp)

/-- Witness for C3: on the sample dataset, id 9 is absent (404) and id 1
matches the two Alpha records. -/
theorem get_by_id_contract_witness :
    get_records_by_insid sampleDS 9
        = Except.error (404, "No records found for INSID " ++ toString (9 : Int)) ∧
    get_records_by_insid sampleDS 1
        = Except.ok
            { insid := 1
            , count := (sampleDS.filter (fun x => x.insid == (1 : Int))).length
            , data := sampleDS.filter (fun x => x.insid == (1 : Int)) } ∧
    ((∃ e : HttpError, get_records_by_insid sampleDS 9 = Except.error e) ↔
        (∀ x ∈ sampleDS, x.insid ≠ 9)) ∧
    (sampleR1 ∈ sampleDS.filter (fun x => x.insid == (1 : Int)) ↔
        sampleR1 ∈ sampleDS ∧ sampleR1.insid = 1) :=
  ⟨(get_by_id_contract sampleDS 9 sampleR1).1 (by decide),
   (get_by_id_contract sampleDS 1 sampleR1).2.1
     ⟨sampleR1, by decide, by decide⟩,
   (get_by_id_contract sampleDS 9 sampleR1).2.2.1,
   (get_by_id_contract sampleDS 1 sampleR1).2.2.2⟩

/-- C4: `GET /stats` reports the count of distinct `INSNAME` values, the
count of distinct `CREDDESC` values, and the distinct `CREDLEV` values in
order of first occurrence in the dataset (duplicates removed, not
sorted). -/
theorem stats_contract (ds : List Record) (v : PyStr) :
    (get_stats ds).unique_institutions
        = (ds.filterMap Record.insname).toFinset.card ∧
    (get_stats ds).unique_credentials
        = (ds.filterMap Record.creddesc).toFinset.card ∧
    (get_stats ds).credential_levels.Nodup ∧
    (v ∈ (get_stats ds).credential_levels ↔ v ∈ ds.map Record.credlev) ∧
    (get_stats ds).credential_levels.Pairwise
      (fun a b => firstIdx (ds.map Record.credlev) a
          < firstIdx (ds.map Record.credlev) b) := by
  have hcol : ∀ col : Record → Option PyStr,
      (ds.map col).filterMap id = ds.filterMap col := by
    intro col
    rw [List.filterMap_map]
    rfl
  refine ⟨?_, ?_, nodup_uniqueFirst _, mem_uniqueFirst _ _,
    pairwise_firstIdx_uniqueFirst _⟩
  · show nunique (ds.map Record.insname) = _
    rw [nunique, hcol, length_uniqueFirst]
  · show nunique (ds.map Record.creddesc) = _
    rw [nunique, hcol, length_uniqueFirst]

/-- C6: requests to `GET /records` with `page < 1`, `size < 1`,
`size > 100`, or a malformed `page`/`size`/`insid` parameter are rejected
with HTTP 422 at the boundary before any store operation runs; the store
is only ever invoked with `page ≥ 1` and `size ∈ [1, 100]`. -/
theorem boundary_validation (ds : List Record) (pr sr : RawParam)
    (i c : Option PyStr) (res : RecordsPage) :
    (∀ page size : Int, ¬(1 ≤ page ∧ 1 ≤ size ∧ size ≤ 100) →
        recordsEndpoint ds (RawParam.value page) (RawParam.value size) i c
          = Except.error (422, "Unprocessable Entity")) ∧
    ((pr = RawParam.malformed ∨ sr = RawParam.malformed) →
        recordsEndpoint ds pr sr i c
          = Except.error (422, "Unprocessable Entity")) ∧
    (recordsEndpoint ds pr sr i c = Except.ok res →
        ∃ page size : Nat, 1 ≤ page ∧ 1 ≤ size ∧ size ≤ 100 ∧
          res = get_records ds page size i c) ∧
    recordsByIdEndpoint ds RawParam.malformed
        = Except.error (422, "Unprocessable Entity") ∧
    (∀ n : Int, recordsByIdEndpoint ds (RawParam.value n)
        = get_records_by_insid ds n) := by
  refine ⟨?_, ?_, ?_, rfl, fun n => rfl⟩
  · intro page size hbad
    simp only [recordsEndpoint, parseParam]
    rw [if_neg hbad]
  · rintro (rfl | rfl)
    · rfl
    · cases pr <;> rfl
  · intro h
    cases pr with
    | malformed => simp [recordsEndpoint, parseParam] at h
    | absent =>
      cases sr with
      | malformed => simp [recordsEndpoint, parseParam] at h
      | absent =>
        simp only [recordsEndpoint, parseParam] at h
        split at h
        · rename_i hcond
          injection h with h2
          exact ⟨1, 10, by omega, by omega, by omega, h2.symm⟩
        · simp at h
      | value m =>
        simp only [recordsEndpoint, parseParam] at h
        split at h
        · rename_i hcond
          injection h with h2
          exact ⟨1, m.toNat, by omega, by omega, by omega, h2.symm⟩
        · simp at h
    | value n =>
      cases sr with
      | malformed => simp [recordsEndpoint, parseParam] at h
      | absent =>
        simp only [recordsEndpoint, parseParam] at h
        split at h
        · rename_i hcond
          injection h with h2
          exact ⟨n.toNat, 10, by omega, by omega, by omega, h2.symm⟩
        · simp at h
      | value m =>
        simp only [recordsEndpoint, parseParam] at h
        split at h
        · rename_i hcond
          injection h with h2
          exact ⟨n.toNat, m.toNat, by omega, by omega, by omega, h2.symm⟩
        · simp at h

/-- Witness for C6: `page = 0` is rejected with 422, a malformed `page` is
rejected with 422, a malformed `insid` is rejected with 422, and a
well-formed `insid` reaches the store. -/
theorem boundary_validation_witness :
    recordsEndpoint sampleDS (RawParam.value 0) (RawParam.value 10) none none
        = Except.error (422, "Unprocessable Entity") ∧
    recordsEndpoint sampleDS RawParam.malformed RawParam.absent none none
        = Except.error (422, "Unprocessable Entity") ∧
    recordsByIdEndpoint sampleDS RawParam.malformed
        = Except.error (422, "Unprocessable Entity") ∧
    recordsByIdEndpoint sampleDS (RawParam.value 9)
        = get_records_by_insid sampleDS 9 :=
  ⟨(boundary_validation sampleDS (RawParam.value 0) (RawParam.value 10)
      none none ⟨1, 0, 0, []⟩).1 0 10 (by decide),
   (boundary_validation sampleDS RawParam.malformed RawParam.absent
      none none ⟨1, 0, 0, []⟩).2.1 (Or.inl rfl),
   (boundary_validation sampleDS RawParam.malformed RawParam.absent
      none none ⟨1, 0, 0, []⟩).2.2.2.1,
   (boundary_validation sampleDS RawParam.malformed RawParam.absent
      none none ⟨1, 0, 0, []⟩).2.2.2.2 9⟩

/-- C8: the by-id result sets taken over all distinct `INSID` values
occurring in the dataset partition it: their union covers every record
exactly once (a permutation of the dataset). -/
theorem get_by_id_partition (ds : List Record) (id : Int) :
    ((insids ds).flatMap (byIdData ds)).Perm ds ∧
    (insids ds).Nodup ∧
    (id ∈ insids ds ↔ id ∈ ds.map Record.insid) := by
  refine ⟨?_, nodup_uniqueFirst _, mem_uniqueFirst _ _⟩
  rw [List.perm_iff_count]
  intro r
  rw [List.count_flatMap]
  have h1 : ∀ x ∈ insids ds, (List.count r ∘ byIdData ds) x
      = if r.insid = x then ds.count r else 0 := by
    intro x _
    show (byIdData ds x).count r = _
    rw [byIdData_eq_filter]
    exact count_filter_insid ds r x
  rw [List.map_congr_left h1]
  rw [sum_map_ite_mem r.insid (ds.count r) (insids ds) (nodup_uniqueFirst _)]
  by_cases hmem : r.insid ∈ insids ds
  · rw [if_pos hmem]
  · rw [if_neg hmem]
    symm
    refine List.count_eq_zero.mpr (fun hr => hmem ?_)
    exact (mem_uniqueFirst _ _).mpr (List.mem_map.mpr ⟨r, hr, rfl⟩)

/-- C10: under any non-empty `insname` (resp. `creddesc`) filter, a record
whose `INSNAME` (resp. `CREDDESC`) value is missing is excluded from the
filtered results, regardless of the filter value. -/
theorem missing_values_excluded (ds : List Record) (page size : Nat)
    (p : PyStr) (i c : Option PyStr) (r1 r2 : Record) (hp : p ≠ [])
    (h1 : r1.insname = none) (h2 : r2.creddesc = none) :
    r1 ∉ filteredSpec ds (some p) c ∧
    r1 ∉ (get_records ds page size (some p) c).data ∧
    r2 ∉ filteredSpec ds i (some p) ∧
    r2 ∉ (get_records ds page size i (some p)).data := by
  have key1 : r1 ∉ filteredSpec ds (some p) c := by
    intro hmem
    have hb := (List.mem_filter.mp hmem).2
    rw [h1] at hb
    simp [passesFilter, if_neg hp, cellMatches] at hb
  have key2 : r2 ∉ filteredSpec ds i (some p) := by
    intro hmem
    have hb := (List.mem_filter.mp hmem).2
    rw [h2] at hb
    simp [passesFilter, if_neg hp, cellMatches] at hb
  refine ⟨key1, ?_, key2, ?_⟩
  · intro hmem
    refine key1 ?_
    have hmem' : r1 ∈ ((applyFilter c Record.creddesc
        (applyFilter (some p) Record.insname ds)).drop
          ((page - 1) * size)).take size := hmem
    have hx := List.mem_of_mem_drop (List.mem_of_mem_take hmem')
    rwa [applyFilter_comp] at hx
  · intro hmem
    refine key2 ?_
    have hmem' : r2 ∈ ((applyFilter (some p) Record.creddesc
        (applyFilter i Record.insname ds)).drop
          ((page - 1) * size)).take size := hmem
    have hx := List.mem_of_mem_drop (List.mem_of_mem_take hmem')
    rwa [applyFilter_comp] at hx

/-- Witness for C10: on the dataset with missing cells, the record lacking
`INSNAME` (resp. `CREDDESC`) is excluded by the filter `a`. -/
theorem missing_values_excluded_witness :
    sampleR2 ∉ filteredSpec sampleDS2 (some ("a".toList)) none ∧
    sampleR2 ∉ (get_records sampleDS2 1 10 (some ("a".toList)) none).data ∧
    sampleR3 ∉ filteredSpec sampleDS2 none (some ("a".toList)) ∧
    sampleR3 ∉ (get_records sampleDS2 1 10 none (some ("a".toList))).data :=
  missing_values_excluded sampleDS2 1 10 ("a".toList) none none
    sampleR2 sampleR3 (by decide) (by decide) (by decide)

end Apitry
